import Mathlib

/-!
Verification of the stateful alert-decision layer of NodeSentinel
(src/crypto_utils.py and src/nodesentinel.py).

The embedding models numeric samples, prices, fees, thresholds and
timestamps as integers (ℤ): every comparison the decision layer performs is
an order comparison, so exact integer arithmetic captures the logic at any
granularity (a time unit can stand for a millisecond as well as a second).
The single division in the modelled code, the reset check
abs(price - reference) < PRICE_CHANGE_THRESHOLD_LOW / 2 of
crypto_utils.py line 254, is embedded in the equivalent multiplied form
2 * |price - reference| < PRICE_CHANGE_THRESHOLD_LOW to stay in ℤ.

Each polling-loop body is modelled as a pure step function on an explicit
state record.  Alert emission is modelled by returning the emitted alert
(or the list of emitted alerts) alongside the updated state; the delivery
transport (Telegram) is out of scope.
-/

namespace NodeSentinel

/-! ## Fee-level hysteresis state machine (crypto_utils.py, surveillance_task)

The fee branch of surveillance_task keeps a string state
current_fee_state that starts at "INIT" and is one of
"INIT" / "NORMAL" / "HIGH" / "MEDIUM" / "LOW" afterwards. -/

/-- The values current_fee_state takes in surveillance_task. -/
inductive FeeState
  | INIT
  | NORMAL
  | HIGH
  | MEDIUM
  | LOW
deriving DecidableEq, Repr

/-- The fee alerts that surveillance_task can send (lines 211-222). -/
inductive FeeAlert
  | highFees
  | mediumFees
  | lowFees
  | normalized
deriving DecidableEq, Repr

/-- Thresholds read from the environment in nodesentinel.py and imported by
surveillance_task, plus the hard-coded ALERT_COOLDOWN = 300. -/
structure FeeConfig where
  FEE_LOW_THRESHOLD : ℤ
  FEE_MED_THRESHOLD : ℤ
  ALERT_COOLDOWN : ℤ
deriving DecidableEq, Repr

/-- The state variables of surveillance_task that the fee / price / macro
sections read and write: current_fee_state, last_fee_alert_ts,
last_price_volatility_alert_ts, and the module globals
LAST_VOLATILITY_REFERENCE_USD and LAST_MACRO_REPORT_TS. -/
structure SurvState where
  current_fee_state : FeeState
  last_fee_alert_ts : ℤ
  last_price_volatility_alert_ts : ℤ
  LAST_VOLATILITY_REFERENCE_USD : ℤ
  LAST_MACRO_REPORT_TS : ℤ
deriving DecidableEq, Repr

/-- Fee classification, crypto_utils.py lines 198-206: default "NORMAL",
then HIGH if fee > FEE_MED_THRESHOLD, else LOW if fee ≤ FEE_LOW_THRESHOLD,
else MEDIUM if FEE_LOW_THRESHOLD < fee ≤ FEE_MED_THRESHOLD. -/
def classifyFee (cfg : FeeConfig) (fee : ℤ) : FeeState :=
  if fee > cfg.FEE_MED_THRESHOLD then FeeState.HIGH
  else if fee ≤ cfg.FEE_LOW_THRESHOLD then FeeState.LOW
  else if fee > cfg.FEE_LOW_THRESHOLD ∧ fee ≤ cfg.FEE_MED_THRESHOLD then FeeState.MEDIUM
  else FeeState.NORMAL

/-- The if/elif chain on new_fee_state inside the alert branch
(crypto_utils.py lines 211-222): which message is sent, given the previous
state and the newly computed state. -/
def feeAlertFor (prev new : FeeState) : Option FeeAlert :=
  match new with
  | FeeState.HIGH => some FeeAlert.highFees
  | FeeState.MEDIUM => some FeeAlert.mediumFees
  | FeeState.LOW => some FeeAlert.lowFees
  | FeeState.NORMAL =>
      if prev ≠ FeeState.NORMAL then some FeeAlert.normalized else none
  | FeeState.INIT => none

/-- One pass of the fee-surveillance section (crypto_utils.py lines
196-231) for a successfully fetched fastestFee value.  Returns the updated
state and the fee alert sent, if any. -/
def feeStep (cfg : FeeConfig) (now fee : ℤ) (st : SurvState) :
    SurvState × Option FeeAlert :=
  let new_fee_state := classifyFee cfg fee
  if st.current_fee_state ≠ FeeState.INIT ∧ new_fee_state ≠ st.current_fee_state ∧
      now - st.last_fee_alert_ts > cfg.ALERT_COOLDOWN then
    ({ st with current_fee_state := new_fee_state, last_fee_alert_ts := now },
      feeAlertFor st.current_fee_state new_fee_state)
  else if st.current_fee_state = FeeState.INIT then
    ({ st with current_fee_state := new_fee_state, LAST_MACRO_REPORT_TS := now }, none)
  else
    (st, none)

/-- Claim C1: the first fee evaluation after startup (state "INIT") never
emits an alert: for every sampled fee value the machine silently adopts the
computed level and sends no fee state-change message. -/
theorem feeStep_init_silent (cfg : FeeConfig) (now fee : ℤ) (st : SurvState)
    (hinit : st.current_fee_state = FeeState.INIT) :
    (feeStep cfg now fee st).2 = none ∧
    (feeStep cfg now fee st).1.current_fee_state = classifyFee cfg fee := by
  unfold feeStep
  rw [if_neg, if_pos hinit]
  · exact ⟨rfl, rfl⟩
  · intro h
    exact h.1 hinit

/-- Witness for C1: a concrete first evaluation (fee 12, thresholds 5/10)
adopts the computed level silently. -/
theorem feeStep_init_silent_witness :
    (feeStep ⟨5, 10, 300⟩ 1000 12 ⟨FeeState.INIT, 0, 0, 0, 0⟩).2 = none ∧
    (feeStep ⟨5, 10, 300⟩ 1000 12 ⟨FeeState.INIT, 0, 0, 0, 0⟩).1.current_fee_state =
      classifyFee ⟨5, 10, 300⟩ 12 :=
  feeStep_init_silent ⟨5, 10, 300⟩ 1000 12 ⟨FeeState.INIT, 0, 0, 0, 0⟩ rfl

/-- Claim C2: for every fee sample and every setting of the thresholds the
three guarded branches (HIGH, LOW, MEDIUM) are exhaustive, so the default
"NORMAL" is always overwritten and the "FEES NORMALIZED" alert is
unreachable. -/
theorem classifyFee_never_normal (cfg : FeeConfig) (fee : ℤ) :
    classifyFee cfg fee ≠ FeeState.NORMAL ∧
    ∀ (now : ℤ) (st : SurvState), (feeStep cfg now fee st).2 ≠ some FeeAlert.normalized := by
  have hcl : classifyFee cfg fee ≠ FeeState.NORMAL := by
    unfold classifyFee
    split
    · simp
    · split
      · simp
      · split
        · simp
        · rename_i h1 h2 h3
          exact absurd ⟨lt_of_not_le h2, le_of_not_lt h1⟩ h3
  have halert : ∀ prev : FeeState, feeAlertFor prev (classifyFee cfg fee) ≠
      some FeeAlert.normalized := by
    intro prev
    cases hc : classifyFee cfg fee
    case NORMAL => exact absurd hc hcl
    all_goals simp [feeAlertFor]
  refine ⟨hcl, ?_⟩
  intro now st
  unfold feeStep
  by_cases h1 : st.current_fee_state ≠ FeeState.INIT ∧
      classifyFee cfg fee ≠ st.current_fee_state ∧
      now - st.last_fee_alert_ts > cfg.ALERT_COOLDOWN
  · rw [if_pos h1]
    exact halert st.current_fee_state
  · rw [if_neg h1]
    by_cases h2 : st.current_fee_state = FeeState.INIT
    · rw [if_pos h2]; simp
    · rw [if_neg h2]; simp

/-! ## Claim C4: transition persistence and the fee-alert cooldown -/

/-- Counterexample for claim C4 as stated: with thresholds 5/10 and cooldown
300, a machine in state LOW that last alerted at t=1000 sees fee 20 at
t=1100.  The computed level HIGH differs from LOW, yet the evaluation
leaves the stored level at LOW (and emits nothing): the transition is
dropped because the cooldown has not elapsed. -/
theorem feeStep_transition_dropped :
    classifyFee ⟨5, 10, 300⟩ 20 = FeeState.HIGH ∧
    FeeState.HIGH ≠ FeeState.LOW ∧
    (feeStep ⟨5, 10, 300⟩ 1100 20 ⟨FeeState.LOW, 1000, 0, 0, 0⟩).1.current_fee_state =
      FeeState.LOW ∧
    (feeStep ⟨5, 10, 300⟩ 1100 20 ⟨FeeState.LOW, 1000, 0, 0, 0⟩).2 = none := by
  decide

/-- Claim C4, amended: for an initialized machine whose computed level
differs from the stored one, the new level is persisted on that evaluation
iff the fee-alert cooldown has also elapsed; within the cooldown the
evaluation changes nothing and the transition is dropped for that cycle. -/
theorem feeStep_persists_iff_cooldown (cfg : FeeConfig) (now fee : ℤ) (st : SurvState)
    (hinit : st.current_fee_state ≠ FeeState.INIT)
    (hdiff : classifyFee cfg fee ≠ st.current_fee_state) :
    (now - st.last_fee_alert_ts > cfg.ALERT_COOLDOWN →
      (feeStep cfg now fee st).1.current_fee_state = classifyFee cfg fee ∧
      (feeStep cfg now fee st).1.last_fee_alert_ts = now) ∧
    (¬(now - st.last_fee_alert_ts > cfg.ALERT_COOLDOWN) →
      feeStep cfg now fee st = (st, none)) := by
  constructor
  · intro hcool
    unfold feeStep
    rw [if_pos ⟨hinit, hdiff, hcool⟩]
    exact ⟨rfl, rfl⟩
  · intro hcool
    unfold feeStep
    rw [if_neg, if_neg hinit]
    intro h
    exact hcool h.2.2

/-- Witness for the amended C4: a concrete evaluation with the cooldown
elapsed, and one with it not elapsed. -/
theorem feeStep_persists_iff_cooldown_witness :
    ((1500 : ℤ) - 1000 > 300 →
      (feeStep ⟨5, 10, 300⟩ 1500 20 ⟨FeeState.LOW, 1000, 0, 0, 0⟩).1.current_fee_state =
        classifyFee ⟨5, 10, 300⟩ 20 ∧
      (feeStep ⟨5, 10, 300⟩ 1500 20 ⟨FeeState.LOW, 1000, 0, 0, 0⟩).1.last_fee_alert_ts = 1500) ∧
    (¬((1500 : ℤ) - 1000 > 300) →
      feeStep ⟨5, 10, 300⟩ 1500 20 ⟨FeeState.LOW, 1000, 0, 0, 0⟩ =
        ((⟨FeeState.LOW, 1000, 0, 0, 0⟩ : SurvState), none)) :=
  feeStep_persists_iff_cooldown ⟨5, 10, 300⟩ 1500 20 ⟨FeeState.LOW, 1000, 0, 0, 0⟩
    (by decide) (by decide)

/-! ## BTC price surveillance (crypto_utils.py, surveillance_task section 2)

PRICE_HISTORY holds dicts with the fetched prices and a timestamp; only the
usd price and the timestamp are read by the surveillance logic, so a sample
is modelled by those two fields. -/

/-- One entry of PRICE_HISTORY: the usd price and the time it was stored. -/
structure PricePoint where
  usd : ℤ
  time : ℤ
deriving DecidableEq, Repr

/-- update_price_history (crypto_utils.py lines 36-44): append the new
sample stamped with the current time, then keep only samples newer than
four hours. -/
def update_price_history (now usd : ℤ) (hist : List PricePoint) : List PricePoint :=
  (hist ++ [PricePoint.mk usd now]).filter fun d => decide (d.time > now - 4 * 3600)

/-- The lookup at crypto_utils.py line 243: the first history entry (in
append order) whose timestamp is older than 120 minutes. -/
def findOldPrice (now : ℤ) (hist : List PricePoint) : Option PricePoint :=
  hist.find? fun d => decide (d.time < now - 120 * 60)

/-- The selection claim C3 describes, following the spec words "the most
recent historical sample older than a fixed lookback window": the last
history entry older than 120 minutes.  Stated only to compare with
findOldPrice, the selection the code performs. -/
def mostRecentOldPrice (now : ℤ) (hist : List PricePoint) : Option PricePoint :=
  (hist.filter fun d => decide (d.time < now - 120 * 60)).getLast?

/-- PRICE_VOLATILITY_COOLDOWN = 4 * 3600 (crypto_utils.py line 184). -/
def PRICE_VOLATILITY_COOLDOWN : ℤ := 4 * 3600

/-- MACRO_REPORT_COOLDOWN = 24 * 3600 (crypto_utils.py line 185). -/
def MACRO_REPORT_COOLDOWN : ℤ := 24 * 3600

/-- PRICE_CHANGE_THRESHOLD_LOW / _HIGH, read from the environment in
nodesentinel.py lines 88-89. -/
structure VolConfig where
  PRICE_CHANGE_THRESHOLD_LOW : ℤ
  PRICE_CHANGE_THRESHOLD_HIGH : ℤ
deriving DecidableEq, Repr

/-- A volatility alert: whether the price rose (change_abs_usd > 0) and
whether the magnitude was classified "MAJOR" (≥ PRICE_CHANGE_THRESHOLD_HIGH)
rather than "SIGNIFICANT".  The message text and the follow-up contextual
analysis depend only on these and on the numbers already in scope. -/
structure PriceAlert where
  rose : Bool
  major : Bool
deriving DecidableEq, Repr

/-- One pass of the price-surveillance section (crypto_utils.py lines
237-298) for a successfully fetched usd price: update the history, look up
the comparison sample, run the reset check on the volatility reference,
and emit at most one alert gated by significance, the 4-hour volatility
cooldown, the zero reference, and the fee state being initialized.  The
reset check's half-threshold comparison is written multiplied by 2 (see the
file header). -/
def priceStep (vcfg : VolConfig) (now usd : ℤ) (hist : List PricePoint) (st : SurvState) :
    List PricePoint × SurvState × Option PriceAlert :=
  let hist2 := update_price_history now usd hist
  match findOldPrice now hist2 with
  | none => (hist2, st, none)
  | some old =>
    if usd > 0 ∧ old.usd > 0 then
      let change_abs_usd := usd - old.usd
      let st1 :=
        if st.LAST_VOLATILITY_REFERENCE_USD ≠ 0 ∧
            2 * |usd - st.LAST_VOLATILITY_REFERENCE_USD| < vcfg.PRICE_CHANGE_THRESHOLD_LOW then
          { st with LAST_VOLATILITY_REFERENCE_USD := 0 }
        else st
      if st1.current_fee_state ≠ FeeState.INIT ∧
          |change_abs_usd| ≥ vcfg.PRICE_CHANGE_THRESHOLD_LOW ∧
          now - st1.last_price_volatility_alert_ts > PRICE_VOLATILITY_COOLDOWN ∧
          st1.LAST_VOLATILITY_REFERENCE_USD = 0 then
        let alert : PriceAlert :=
          if change_abs_usd > 0 then
            ⟨true, decide (change_abs_usd ≥ vcfg.PRICE_CHANGE_THRESHOLD_HIGH)⟩
          else
            ⟨false, decide (|change_abs_usd| ≥ vcfg.PRICE_CHANGE_THRESHOLD_HIGH)⟩
        (hist2,
          { st1 with LAST_VOLATILITY_REFERENCE_USD := usd,
                     last_price_volatility_alert_ts := now },
          some alert)
      else (hist2, st1, none)
    else (hist2, st, none)

/-! ## Claim C3: which historical sample is compared -/

/-- Counterexample for claim C3 as stated: at t=20000 with retained samples
at t=10000 and t=12000 (both older than 120 minutes = 7200) and a fresh
sample at t=20000, the code's lookup returns the sample at t=10000 — the
oldest qualifying sample, not the most recent one (t=12000) that the claim
describes. -/
theorem findOldPrice_not_most_recent :
    findOldPrice 20000
      (update_price_history 20000 300 [PricePoint.mk 100 10000, PricePoint.mk 200 12000]) =
      some (PricePoint.mk 100 10000) ∧
    mostRecentOldPrice 20000
      (update_price_history 20000 300 [PricePoint.mk 100 10000, PricePoint.mk 200 12000]) =
      some (PricePoint.mk 200 12000) ∧
    PricePoint.mk 100 10000 ≠ PricePoint.mk 200 12000 := by
  decide

/-- For a history sorted by timestamp (as PRICE_HISTORY is, being append
ordered), the code's lookup returns the earliest entry older than the
120-minute cutoff, and returns none exactly when no entry is that old. -/
theorem findOldPrice_spec (now : ℤ) :
    ∀ hist : List PricePoint, hist.Pairwise (fun a b => a.time ≤ b.time) →
      (∀ p, findOldPrice now hist = some p →
        p.time < now - 120 * 60 ∧ ∀ q ∈ hist, q.time < now - 120 * 60 → p.time ≤ q.time) ∧
      (findOldPrice now hist = none → ∀ q ∈ hist, ¬(q.time < now - 120 * 60)) := by
  intro hist
  induction hist with
  | nil =>
      intro _
      constructor
      · intro p hp
        simp [findOldPrice] at hp
      · intro _ q hq
        simp at hq
  | cons d rest ih =>
      intro hs
      rw [List.pairwise_cons] at hs
      have ihr := ih hs.2
      by_cases hd : d.time < now - 120 * 60
      · have hfind : findOldPrice now (d :: rest) = some d := by
          unfold findOldPrice
          exact List.find?_cons_of_pos rest (decide_eq_true hd)
        constructor
        · intro p hp
          rw [hfind] at hp
          cases hp
          refine ⟨hd, ?_⟩
          intro q hq _
          rcases List.mem_cons.mp hq with h | h
          · rw [h]
          · exact hs.1 q h
        · intro hnone
          rw [hfind] at hnone
          cases hnone
      · have hfind : findOldPrice now (d :: rest) = findOldPrice now rest := by
          unfold findOldPrice
          exact List.find?_cons_of_neg rest (by simpa using hd)
        constructor
        · intro p hp
          rw [hfind] at hp
          obtain ⟨hlt, hmin⟩ := ihr.1 p hp
          refine ⟨hlt, ?_⟩
          intro q hq hqold
          rcases List.mem_cons.mp hq with h | h
          · rw [h] at hqold
            exact absurd hqold hd
          · exact hmin q h hqold
        · intro hnone
          rw [hfind] at hnone
          intro q hq
          rcases List.mem_cons.mp hq with h | h
          · rw [h]
            exact hd
          · exact ihr.2 hnone q h

/-- Claim C3, amended: in every cycle the historical sample compared is the
first entry, in append order, of the retained 4-hour history that is older
than the 120-minute window — for a time-sorted history this is the oldest
such sample, not the most recent one; and if no retained sample is older
than 120 minutes, no volatility evaluation occurs that cycle (the state is
untouched and no alert is emitted). -/
theorem priceStep_uses_first_old (now : ℤ) (hist : List PricePoint)
    (hsorted : hist.Pairwise (fun a b => a.time ≤ b.time)) :
    (∀ p, findOldPrice now hist = some p →
      p.time < now - 120 * 60 ∧ ∀ q ∈ hist, q.time < now - 120 * 60 → p.time ≤ q.time) ∧
    (findOldPrice now hist = none → ∀ q ∈ hist, ¬(q.time < now - 120 * 60)) ∧
    (∀ (vcfg : VolConfig) (usd : ℤ) (st : SurvState),
      findOldPrice now (update_price_history now usd hist) = none →
      priceStep vcfg now usd hist st = (update_price_history now usd hist, st, none)) := by
  obtain ⟨h1, h2⟩ := findOldPrice_spec now hist hsorted
  refine ⟨h1, h2, ?_⟩
  intro vcfg usd st h
  simp only [priceStep, h]

/-- Witness for the amended C3: the concrete sorted history of the
counterexample, plus an empty history for the no-evaluation conjunct. -/
theorem priceStep_uses_first_old_witness :
    ((∀ p, findOldPrice 20000 [PricePoint.mk 100 10000, PricePoint.mk 200 12000] = some p →
      p.time < 20000 - 120 * 60 ∧
      ∀ q ∈ [PricePoint.mk 100 10000, PricePoint.mk 200 12000],
        q.time < 20000 - 120 * 60 → p.time ≤ q.time) ∧
    (findOldPrice 20000 [PricePoint.mk 100 10000, PricePoint.mk 200 12000] = none →
      ∀ q ∈ [PricePoint.mk 100 10000, PricePoint.mk 200 12000],
        ¬(q.time < 20000 - 120 * 60)) ∧
    (∀ (vcfg : VolConfig) (usd : ℤ) (st : SurvState),
      findOldPrice 20000
        (update_price_history 20000 usd [PricePoint.mk 100 10000, PricePoint.mk 200 12000]) =
        none →
      priceStep vcfg 20000 usd [PricePoint.mk 100 10000, PricePoint.mk 200 12000] st =
        (update_price_history 20000 usd [PricePoint.mk 100 10000, PricePoint.mk 200 12000],
          st, none))) :=
  priceStep_uses_first_old 20000 [PricePoint.mk 100 10000, PricePoint.mk 200 12000] (by decide)

/-! ## Claim C6: volatility anti-spam single-shot behaviour -/

/-- Claim C6: (1) with the reference at zero, an initialized fee state, the
volatility cooldown elapsed and a change over the lookback of at least
PRICE_CHANGE_THRESHOLD_LOW, the cycle emits exactly one alert and records
the current price as the reference (and the alert time); (2) while the
reference is non-zero and the price has not returned within half the low
threshold of it, the cycle emits nothing and leaves the state untouched;
(3) once the price returns within half the low threshold of the non-zero
reference (and the lookback change is no longer significant), the
reference resets to zero with no alert — re-arming the next qualifying
excursion. -/
theorem priceStep_single_shot :
    (∀ (vcfg : VolConfig) (now usd : ℤ) (hist : List PricePoint) (st : SurvState)
        (old : PricePoint),
      st.LAST_VOLATILITY_REFERENCE_USD = 0 →
      st.current_fee_state ≠ FeeState.INIT →
      findOldPrice now (update_price_history now usd hist) = some old →
      usd > 0 → old.usd > 0 →
      |usd - old.usd| ≥ vcfg.PRICE_CHANGE_THRESHOLD_LOW →
      now - st.last_price_volatility_alert_ts > PRICE_VOLATILITY_COOLDOWN →
      ∃ a, (priceStep vcfg now usd hist st).2.2 = some a ∧
        (priceStep vcfg now usd hist st).2.1.LAST_VOLATILITY_REFERENCE_USD = usd ∧
        (priceStep vcfg now usd hist st).2.1.last_price_volatility_alert_ts = now) ∧
    (∀ (vcfg : VolConfig) (now usd : ℤ) (hist : List PricePoint) (st : SurvState),
      st.LAST_VOLATILITY_REFERENCE_USD ≠ 0 →
      ¬(2 * |usd - st.LAST_VOLATILITY_REFERENCE_USD| < vcfg.PRICE_CHANGE_THRESHOLD_LOW) →
      (priceStep vcfg now usd hist st).2.2 = none ∧
      (priceStep vcfg now usd hist st).2.1 = st) ∧
    (∀ (vcfg : VolConfig) (now usd : ℤ) (hist : List PricePoint) (st : SurvState)
        (old : PricePoint),
      st.LAST_VOLATILITY_REFERENCE_USD ≠ 0 →
      2 * |usd - st.LAST_VOLATILITY_REFERENCE_USD| < vcfg.PRICE_CHANGE_THRESHOLD_LOW →
      findOldPrice now (update_price_history now usd hist) = some old →
      usd > 0 → old.usd > 0 →
      ¬(|usd - old.usd| ≥ vcfg.PRICE_CHANGE_THRESHOLD_LOW) →
      (priceStep vcfg now usd hist st).2.2 = none ∧
      (priceStep vcfg now usd hist st).2.1.LAST_VOLATILITY_REFERENCE_USD = 0) := by
  refine ⟨?_, ?_, ?_⟩
  · intro vcfg now usd hist st old h0 hinit hfind hu ho hsig hcool
    simp only [priceStep, hfind]
    rw [if_pos ⟨hu, ho⟩]
    rw [if_neg (show ¬(st.LAST_VOLATILITY_REFERENCE_USD ≠ 0 ∧
        2 * |usd - st.LAST_VOLATILITY_REFERENCE_USD| < vcfg.PRICE_CHANGE_THRESHOLD_LOW) from
      fun hcontra => hcontra.1 h0)]
    rw [if_pos ⟨hinit, hsig, hcool, h0⟩]
    exact ⟨_, rfl, rfl, rfl⟩
  · intro vcfg now usd hist st href hfar
    cases hfind : findOldPrice now (update_price_history now usd hist) with
    | none =>
        simp [priceStep, hfind]
    | some old =>
        simp only [priceStep, hfind]
        by_cases hpos : usd > 0 ∧ old.usd > 0
        · rw [if_pos hpos]
          rw [if_neg (show ¬(st.LAST_VOLATILITY_REFERENCE_USD ≠ 0 ∧
              2 * |usd - st.LAST_VOLATILITY_REFERENCE_USD| < vcfg.PRICE_CHANGE_THRESHOLD_LOW) from
            fun hcontra => hfar hcontra.2)]
          split
          · rename_i h
            exact absurd h.2.2.2 href
          · exact ⟨rfl, rfl⟩
        · rw [if_neg hpos]
          exact ⟨rfl, rfl⟩
  · intro vcfg now usd hist st old href hnear hfind hu ho hnotsig
    simp only [priceStep, hfind]
    rw [if_pos ⟨hu, ho⟩]
    rw [if_pos (show st.LAST_VOLATILITY_REFERENCE_USD ≠ 0 ∧
        2 * |usd - st.LAST_VOLATILITY_REFERENCE_USD| < vcfg.PRICE_CHANGE_THRESHOLD_LOW from
      ⟨href, hnear⟩)]
    split
    · rename_i h
      exact absurd h.2.1 hnotsig
    · exact ⟨rfl, rfl⟩

/-- Witness for C6: concrete cycles — an armed jump of 1500 with threshold
1000 fires and stores the reference 51500; a further jump while the price
is 1600 away from the reference stays silent with unchanged state; a
return to within 300 of the reference resets it to zero silently. -/
theorem priceStep_single_shot_witness :
    (∃ a, (priceStep ⟨1000, 3000⟩ 20000 51500 [PricePoint.mk 50000 10000]
        ⟨FeeState.NORMAL, 0, 0, 0, 0⟩).2.2 = some a ∧
      (priceStep ⟨1000, 3000⟩ 20000 51500 [PricePoint.mk 50000 10000]
        ⟨FeeState.NORMAL, 0, 0, 0, 0⟩).2.1.LAST_VOLATILITY_REFERENCE_USD = 51500 ∧
      (priceStep ⟨1000, 3000⟩ 20000 51500 [PricePoint.mk 50000 10000]
        ⟨FeeState.NORMAL, 0, 0, 0, 0⟩).2.1.last_price_volatility_alert_ts = 20000) ∧
    ((priceStep ⟨1000, 3000⟩ 20000 53100 [PricePoint.mk 50000 10000]
        ⟨FeeState.NORMAL, 0, 0, 51500, 0⟩).2.2 = none ∧
      (priceStep ⟨1000, 3000⟩ 20000 53100 [PricePoint.mk 50000 10000]
        ⟨FeeState.NORMAL, 0, 0, 51500, 0⟩).2.1 = ⟨FeeState.NORMAL, 0, 0, 51500, 0⟩) ∧
    ((priceStep ⟨1000, 3000⟩ 20000 51800 [PricePoint.mk 51500 10000]
        ⟨FeeState.NORMAL, 0, 0, 51500, 0⟩).2.2 = none ∧
      (priceStep ⟨1000, 3000⟩ 20000 51800 [PricePoint.mk 51500 10000]
        ⟨FeeState.NORMAL, 0, 0, 51500, 0⟩).2.1.LAST_VOLATILITY_REFERENCE_USD = 0) :=
  ⟨priceStep_single_shot.1 ⟨1000, 3000⟩ 20000 51500 [PricePoint.mk 50000 10000]
      ⟨FeeState.NORMAL, 0, 0, 0, 0⟩ (PricePoint.mk 50000 10000) (by decide) (by decide)
      (by decide) (by decide) (by decide) (by decide) (by decide),
    priceStep_single_shot.2.1 ⟨1000, 3000⟩ 20000 53100 [PricePoint.mk 50000 10000]
      ⟨FeeState.NORMAL, 0, 0, 51500, 0⟩ (by decide) (by decide),
    priceStep_single_shot.2.2 ⟨1000, 3000⟩ 20000 51800 [PricePoint.mk 51500 10000]
      ⟨FeeState.NORMAL, 0, 0, 51500, 0⟩ (PricePoint.mk 51500 10000) (by decide) (by decide)
      (by decide) (by decide) (by decide) (by decide)⟩

/-! ## Macro report gate and the full surveillance cycle -/

/-- One entry of FEE_HISTORY (only fastestFee is ever read). -/
structure FeePoint where
  fastestFee : ℤ
  time : ℤ
deriving DecidableEq, Repr

/-- update_fee_history (crypto_utils.py lines 26-34): append the new fee
sample stamped with the current time, keep only the last hour. -/
def update_fee_history (now fee : ℤ) (hist : List FeePoint) : List FeePoint :=
  (hist ++ [FeePoint.mk fee now]).filter fun d => decide (d.time > now - 3600)

/-- The macro-news section (crypto_utils.py lines 300-317): runs only when
the fee state is initialized and 24 hours have passed since
LAST_MACRO_REPORT_TS; the fetched context is posted unless the fetch
failed or the content matches the no-update sentinel (the novelty filter);
the timer resets either way.  The fetched content is an external input,
abstracted by the two Booleans. -/
def macroStep (now : ℤ) (analysisFailed notSignificant : Bool) (st : SurvState) :
    SurvState × Bool :=
  if st.current_fee_state ≠ FeeState.INIT ∧
      now - st.LAST_MACRO_REPORT_TS > MACRO_REPORT_COOLDOWN then
    ({ st with LAST_MACRO_REPORT_TS := now }, !analysisFailed && !notSignificant)
  else
    (st, false)

/-- The external inputs of one surveillance_task cycle: the fee fetch
result (none on API error), the price fetch result (none on API error),
and the two content tests of the novelty filter. -/
structure CycleInput where
  fastestFee : Option ℤ
  usd : Option ℤ
  macroFailed : Bool
  macroNotSignificant : Bool
deriving DecidableEq, Repr

/-- All mutable state surveillance_task touches: the two histories and the
SurvState record. -/
structure CycleState where
  FEE_HISTORY : List FeePoint
  PRICE_HISTORY : List PricePoint
  surv : SurvState
deriving DecidableEq, Repr

/-- What one cycle emits. -/
structure CycleOutput where
  feeAlert : Option FeeAlert
  priceAlert : Option PriceAlert
  macroReport : Bool
deriving DecidableEq, Repr

/-- One iteration of the surveillance_task while-loop (crypto_utils.py
lines 188-319): fee section (skipped when the fetch failed), price section
(skipped when the fetch failed), macro section.  The price and macro
sections see the fee state as updated earlier in the same cycle. -/
def surveillanceCycle (fcfg : FeeConfig) (vcfg : VolConfig) (now : ℤ) (inp : CycleInput)
    (cs : CycleState) : CycleState × CycleOutput :=
  let feeRes :=
    match inp.fastestFee with
    | some fee => (update_fee_history now fee cs.FEE_HISTORY, feeStep fcfg now fee cs.surv)
    | none => (cs.FEE_HISTORY, (cs.surv, none))
  let priceRes :=
    match inp.usd with
    | some usd => priceStep vcfg now usd cs.PRICE_HISTORY feeRes.2.1
    | none => (cs.PRICE_HISTORY, feeRes.2.1, none)
  let macroRes := macroStep now inp.macroFailed inp.macroNotSignificant priceRes.2.1
  (⟨feeRes.1, priceRes.1, macroRes.1⟩, ⟨feeRes.2.2, priceRes.2.2, macroRes.2⟩)

/-- Iterated cycles with given times and inputs, collecting the outputs. -/
def surveillanceRun (fcfg : FeeConfig) (vcfg : VolConfig) (cs : CycleState) :
    List (ℤ × CycleInput) → CycleState × List CycleOutput
  | [] => (cs, [])
  | (now, inp) :: rest =>
      let r := surveillanceCycle fcfg vcfg now inp cs
      let r2 := surveillanceRun fcfg vcfg r.1 rest
      (r2.1, r.2 :: r2.2)

/-- priceStep never changes the fee state. -/
theorem priceStep_fee_state (vcfg : VolConfig) (now usd : ℤ) (hist : List PricePoint)
    (st : SurvState) :
    (priceStep vcfg now usd hist st).2.1.current_fee_state = st.current_fee_state := by
  cases hfind : findOldPrice now (update_price_history now usd hist) with
  | none => simp [priceStep, hfind]
  | some old =>
      simp only [priceStep, hfind]
      by_cases hpos : usd > 0 ∧ old.usd > 0
      · rw [if_pos hpos]
        by_cases hres : st.LAST_VOLATILITY_REFERENCE_USD ≠ 0 ∧
            2 * |usd - st.LAST_VOLATILITY_REFERENCE_USD| < vcfg.PRICE_CHANGE_THRESHOLD_LOW
        · rw [if_pos hres]
          split
          · rfl
          · rfl
        · rw [if_neg hres]
          split
          · rfl
          · rfl
      · rw [if_neg hpos]

/-- With an uninitialized fee state the price section never emits. -/
theorem priceStep_init_no_alert (vcfg : VolConfig) (now usd : ℤ) (hist : List PricePoint)
    (st : SurvState) (hinit : st.current_fee_state = FeeState.INIT) :
    (priceStep vcfg now usd hist st).2.2 = none := by
  cases hfind : findOldPrice now (update_price_history now usd hist) with
  | none => simp [priceStep, hfind]
  | some old =>
      simp only [priceStep, hfind]
      by_cases hpos : usd > 0 ∧ old.usd > 0
      · rw [if_pos hpos]
        by_cases hres : st.LAST_VOLATILITY_REFERENCE_USD ≠ 0 ∧
            2 * |usd - st.LAST_VOLATILITY_REFERENCE_USD| < vcfg.PRICE_CHANGE_THRESHOLD_LOW
        · rw [if_pos hres]
          split
          · rename_i h
            exact absurd hinit h.1
          · rfl
        · rw [if_neg hres]
          split
          · rename_i h
            exact absurd hinit h.1
          · rfl
      · rw [if_neg hpos]

/-- With an uninitialized fee state the macro section does nothing. -/
theorem macroStep_init (now : ℤ) (f n : Bool) (st : SurvState)
    (hinit : st.current_fee_state = FeeState.INIT) :
    macroStep now f n st = (st, false) := by
  unfold macroStep
  rw [if_neg (show ¬(st.current_fee_state ≠ FeeState.INIT ∧
      now - st.LAST_MACRO_REPORT_TS > MACRO_REPORT_COOLDOWN) from fun h => h.1 hinit)]

/-- Claim C10: while the fee state is still "INIT" (that is, before the
first successful fee fetch) no price-volatility alert and no macro report
is emitted, whatever the price history and the elapsed time; so a cycle
whose fee fetch fails leaves the state uninitialized, and a run in which
every fee fetch fails emits neither kind of message in any cycle. -/
theorem init_state_suppresses_market_reports :
    (∀ (fcfg : FeeConfig) (vcfg : VolConfig) (now : ℤ) (inp : CycleInput) (cs : CycleState),
      cs.surv.current_fee_state = FeeState.INIT → inp.fastestFee = none →
      (surveillanceCycle fcfg vcfg now inp cs).2.priceAlert = none ∧
      (surveillanceCycle fcfg vcfg now inp cs).2.macroReport = false ∧
      (surveillanceCycle fcfg vcfg now inp cs).1.surv.current_fee_state = FeeState.INIT) ∧
    (∀ (fcfg : FeeConfig) (vcfg : VolConfig) (cs : CycleState)
        (events : List (ℤ × CycleInput)),
      cs.surv.current_fee_state = FeeState.INIT →
      (∀ e ∈ events, e.2.fastestFee = none) →
      ∀ out ∈ (surveillanceRun fcfg vcfg cs events).2,
        out.priceAlert = none ∧ out.macroReport = false) := by
  have hcycle : ∀ (fcfg : FeeConfig) (vcfg : VolConfig) (now : ℤ) (inp : CycleInput)
      (cs : CycleState),
      cs.surv.current_fee_state = FeeState.INIT → inp.fastestFee = none →
      (surveillanceCycle fcfg vcfg now inp cs).2.priceAlert = none ∧
      (surveillanceCycle fcfg vcfg now inp cs).2.macroReport = false ∧
      (surveillanceCycle fcfg vcfg now inp cs).1.surv.current_fee_state = FeeState.INIT := by
    intro fcfg vcfg now inp cs hinit hfee
    cases husd : inp.usd with
    | none =>
        simp only [surveillanceCycle, hfee, husd]
        rw [macroStep_init now inp.macroFailed inp.macroNotSignificant cs.surv hinit]
        exact ⟨by trivial, by trivial, hinit⟩
    | some usd =>
        have hst2 : (priceStep vcfg now usd cs.PRICE_HISTORY cs.surv).2.1.current_fee_state =
            FeeState.INIT := by
          rw [priceStep_fee_state]
          exact hinit
        simp only [surveillanceCycle, hfee, husd]
        rw [macroStep_init now inp.macroFailed inp.macroNotSignificant _ hst2,
          priceStep_init_no_alert vcfg now usd cs.PRICE_HISTORY cs.surv hinit]
        exact ⟨by trivial, by trivial, hst2⟩
  refine ⟨hcycle, ?_⟩
  intro fcfg vcfg cs events
  induction events generalizing cs with
  | nil =>
      intro hinit hall out hout
      simp [surveillanceRun] at hout
  | cons e rest ih =>
      intro hinit hall out hout
      obtain ⟨now, inp⟩ := e
      have hfee : inp.fastestFee = none := hall (now, inp) (List.mem_cons_self _ _)
      have h1 := hcycle fcfg vcfg now inp cs hinit hfee
      simp only [surveillanceRun] at hout
      rcases List.mem_cons.mp hout with h | h
      · rw [h]
        exact ⟨h1.1, h1.2.1⟩
      · exact ih (surveillanceCycle fcfg vcfg now inp cs).1 h1.2.2
          (fun q hq => hall q (List.mem_cons_of_mem _ hq)) out h

/-- Witness for C10: a concrete uninitialized state with failing fee
fetches, a live price history and a long elapsed time — one cycle and a
two-cycle run. -/
theorem init_state_suppresses_witness :
    ((surveillanceCycle ⟨5, 10, 300⟩ ⟨1000, 3000⟩ 200000
        ⟨none, some 50000, false, false⟩
        ⟨[], [PricePoint.mk 48000 190000], ⟨FeeState.INIT, 0, 0, 0, 0⟩⟩).2.priceAlert = none ∧
      (surveillanceCycle ⟨5, 10, 300⟩ ⟨1000, 3000⟩ 200000
        ⟨none, some 50000, false, false⟩
        ⟨[], [PricePoint.mk 48000 190000], ⟨FeeState.INIT, 0, 0, 0, 0⟩⟩).2.macroReport = false ∧
      (surveillanceCycle ⟨5, 10, 300⟩ ⟨1000, 3000⟩ 200000
        ⟨none, some 50000, false, false⟩
        ⟨[], [PricePoint.mk 48000 190000],
          ⟨FeeState.INIT, 0, 0, 0, 0⟩⟩).1.surv.current_fee_state = FeeState.INIT) ∧
    (∀ out ∈ (surveillanceRun ⟨5, 10, 300⟩ ⟨1000, 3000⟩
        ⟨[], [PricePoint.mk 48000 190000], ⟨FeeState.INIT, 0, 0, 0, 0⟩⟩
        [(200000, ⟨none, some 50000, false, false⟩),
         (200300, ⟨none, some 51000, false, false⟩)]).2,
      out.priceAlert = none ∧ out.macroReport = false) :=
  ⟨init_state_suppresses_market_reports.1 ⟨5, 10, 300⟩ ⟨1000, 3000⟩ 200000
      ⟨none, some 50000, false, false⟩
      ⟨[], [PricePoint.mk 48000 190000], ⟨FeeState.INIT, 0, 0, 0, 0⟩⟩ rfl rfl,
    init_state_suppresses_market_reports.2 ⟨5, 10, 300⟩ ⟨1000, 3000⟩
      ⟨[], [PricePoint.mk 48000 190000], ⟨FeeState.INIT, 0, 0, 0, 0⟩⟩
      [(200000, ⟨none, some 50000, false, false⟩),
       (200300, ⟨none, some 51000, false, false⟩)] rfl (by decide)⟩

/-! ## Persistence debouncer (nodesentinel.py, monitor_system_task)

The CPU, RAM and load-per-core monitors (lines 393-436) share one shape of
logic, one instance of state per quantity: a consecutive over-threshold
counter, an alert-active flag and the time of the last rising alert.  The
model is that shared shape; the CPU instance uses CPU_THRESHOLD_PCT,
PERSISTENCE_COUNT = 3 and cooldown = ALERT_COOLDOWN = 300. -/

/-- ALERT_COOLDOWN = 300 (nodesentinel.py line 78). -/
def ALERT_COOLDOWN : ℤ := 300

/-- PERSISTENCE_COUNT = 3 (nodesentinel.py lines 80 and 373). -/
def PERSISTENCE_COUNT : ℕ := 3

/-- Threshold, persistence target and cooldown of one monitored quantity. -/
structure DebounceConfig where
  threshold : ℤ
  persistence : ℕ
  cooldown : ℤ
deriving DecidableEq, Repr

/-- Per-quantity state: consecutive over-threshold count (cpu_high_count),
alert-active flag (is_cpu_alert_active) and the last rising-alert time
(last_remote_cpu_alert, initialized to 0). -/
structure DebounceState where
  count : ℕ
  active : Bool
  lastAlertTs : ℤ
deriving DecidableEq, Repr

/-- The two alert kinds a debouncer can send. -/
inductive DebounceAlert
  | rising
  | recovery
deriving DecidableEq, Repr

/-- One sample through the persistence logic (nodesentinel.py lines
393-405): first, on an over-threshold sample increment the counter,
otherwise reset it to zero and — if an alert was active — send the
recovery alert and clear the flag; then, if the counter has reached the
persistence target, no alert is active and the cooldown since the last
rising alert has elapsed, send the rising alert, mark active and record
the time. -/
def debounceStep (cfg : DebounceConfig) (now sample : ℤ) (st : DebounceState) :
    DebounceState × List DebounceAlert :=
  let s1 : DebounceState × List DebounceAlert :=
    if sample ≥ cfg.threshold then
      (⟨st.count + 1, st.active, st.lastAlertTs⟩, [])
    else
      (⟨0, false, st.lastAlertTs⟩, if st.active then [DebounceAlert.recovery] else [])
  if s1.1.count ≥ cfg.persistence ∧ s1.1.active = false ∧
      now - st.lastAlertTs > cfg.cooldown then
    (⟨s1.1.count, true, now⟩, s1.2 ++ [DebounceAlert.rising])
  else
    (s1.1, s1.2)

/-- Iterated samples; emissions stamped with the time of their sample. -/
def debounceRun (cfg : DebounceConfig) (st : DebounceState) :
    List (ℤ × ℤ) → DebounceState × List (ℤ × DebounceAlert)
  | [] => (st, [])
  | (now, v) :: rest =>
      let r := debounceStep cfg now v st
      let r2 := debounceRun cfg r.1 rest
      (r2.1, (r.2.map fun a => (now, a)) ++ r2.2)

/-- An over-threshold sample that completes the persistence count with no
active alert and an elapsed cooldown fires the rising alert. -/
theorem debounceStep_over_fires (cfg : DebounceConfig) (now v : ℤ) (st : DebounceState)
    (hover : v ≥ cfg.threshold) (hge : st.count + 1 ≥ cfg.persistence)
    (hact : st.active = false) (hcool : now - st.lastAlertTs > cfg.cooldown) :
    debounceStep cfg now v st = (⟨st.count + 1, true, now⟩, [DebounceAlert.rising]) := by
  unfold debounceStep
  rw [if_pos hover, if_pos ⟨hge, hact, hcool⟩]
  rfl

/-- An over-threshold sample whose rising condition fails only increments
the counter. -/
theorem debounceStep_over_blocked (cfg : DebounceConfig) (now v : ℤ) (st : DebounceState)
    (hover : v ≥ cfg.threshold)
    (hno : ¬(st.count + 1 ≥ cfg.persistence ∧ st.active = false ∧
      now - st.lastAlertTs > cfg.cooldown)) :
    debounceStep cfg now v st = (⟨st.count + 1, st.active, st.lastAlertTs⟩, []) := by
  unfold debounceStep
  rw [if_pos hover, if_neg hno]

/-- An under-threshold sample resets the counter, emits the recovery alert
exactly when one was active, and (for a positive persistence target) never
fires the rising alert. -/
theorem debounceStep_under (cfg : DebounceConfig) (hN : 1 ≤ cfg.persistence)
    (now v : ℤ) (st : DebounceState) (hunder : ¬(v ≥ cfg.threshold)) :
    debounceStep cfg now v st =
      (⟨0, false, st.lastAlertTs⟩,
        if st.active then [DebounceAlert.recovery] else []) := by
  unfold debounceStep
  rw [if_neg hunder, if_neg]
  intro h
  have h0 : cfg.persistence ≤ 0 := h.1
  omega

/-- The kind of the debouncer's most recent emission, read off the active
flag: a rising alert is outstanding exactly while the flag is set. -/
def prevKind (st : DebounceState) : DebounceAlert :=
  if st.active then DebounceAlert.rising else DebounceAlert.recovery

/-- Alert discipline of a debouncer run, for any run and any starting
state: (1) the emitted kinds strictly alternate, continuing the phase the
active flag records (so after a rising alert the next emission is the
recovery, and conversely); (2) each rising emission comes more than the
cooldown after the stored last-rising time, consecutively. -/
theorem debounceRun_discipline (cfg : DebounceConfig) (hN : 1 ≤ cfg.persistence) :
    ∀ (events : List (ℤ × ℤ)) (st : DebounceState),
      ((prevKind st :: ((debounceRun cfg st events).2.map Prod.snd)).Chain' (· ≠ ·)) ∧
      ((st.lastAlertTs :: (((debounceRun cfg st events).2.filter fun e =>
          decide (e.2 = DebounceAlert.rising)).map Prod.fst)).Chain'
        fun a b => cfg.cooldown < b - a) := by
  intro events
  induction events with
  | nil =>
      intro st
      constructor <;> simp [debounceRun]
  | cons ev rest ih =>
      obtain ⟨now, v⟩ := ev
      intro st
      by_cases hover : v ≥ cfg.threshold
      · by_cases hfire : st.count + 1 ≥ cfg.persistence ∧ st.active = false ∧
            now - st.lastAlertTs > cfg.cooldown
        · have hstep := debounceStep_over_fires cfg now v st hover hfire.1 hfire.2.1 hfire.2.2
          obtain ⟨ih1, ih2⟩ := ih ⟨st.count + 1, true, now⟩
          constructor
          · simp only [debounceRun, hstep, List.map_cons, List.map_nil,
              List.singleton_append, List.cons_append, List.nil_append]
            rw [List.chain'_cons]
            constructor
            · simp [prevKind, hfire.2.1]
            · exact ih1
          · simp only [debounceRun, hstep, List.map_cons, List.map_nil,
              List.singleton_append, List.cons_append, List.nil_append,
              List.filter_cons]
            rw [if_pos (by simp)]
            rw [List.map_cons, List.chain'_cons]
            exact ⟨hfire.2.2, ih2⟩
        · have hstep := debounceStep_over_blocked cfg now v st hover hfire
          obtain ⟨ih1, ih2⟩ := ih ⟨st.count + 1, st.active, st.lastAlertTs⟩
          constructor
          · simp only [debounceRun, hstep, List.map_nil, List.nil_append]
            exact ih1
          · simp only [debounceRun, hstep, List.map_nil, List.nil_append]
            exact ih2
      · have hstep := debounceStep_under cfg hN now v st hover
        by_cases hact : st.active = true
        · simp only [hact, if_true] at hstep
          obtain ⟨ih1, ih2⟩ := ih ⟨0, false, st.lastAlertTs⟩
          constructor
          · simp only [debounceRun, hstep, List.map_cons, List.map_nil,
              List.singleton_append, List.cons_append, List.nil_append]
            rw [List.chain'_cons]
            constructor
            · simp [prevKind, hact]
            · exact ih1
          · simp only [debounceRun, hstep, List.map_cons, List.map_nil,
              List.singleton_append, List.cons_append, List.nil_append,
              List.filter_cons]
            rw [if_neg (by simp)]
            exact ih2
        · have hact2 : st.active = false := by
            cases h : st.active
            · rfl
            · exact absurd h hact
          simp only [hact2, Bool.false_eq_true, if_false] at hstep
          obtain ⟨ih1, ih2⟩ := ih ⟨0, false, st.lastAlertTs⟩
          constructor
          · simp only [debounceRun, hstep, List.map_nil, List.nil_append]
            have : prevKind st = prevKind ⟨0, false, st.lastAlertTs⟩ := by
              simp [prevKind, hact2]
            rw [this]
            exact ih1
          · simp only [debounceRun, hstep, List.map_nil, List.nil_append]
            exact ih2

/-- Counterexample for claim C5 as stated: CPU threshold 80, persistence 3,
cooldown 300, fresh state.  Samples 85,85,85,70 at t=1000..1180: the rising
alert fires at t=1120 and the recovery alert is emitted at t=1180 — only 60
seconds later, inside the 300-second cooldown window of that quantity.
Recovery alerts are not gated by the cooldown. -/
theorem debounce_recovery_inside_cooldown :
    (debounceRun ⟨80, 3, 300⟩ ⟨0, false, 0⟩
        [(1000, 85), (1060, 85), (1120, 85), (1180, 70)]).2 =
      [(1120, DebounceAlert.rising), (1180, DebounceAlert.recovery)] ∧
    (1180 : ℤ) - 1120 ≤ 300 := by
  decide

/-- Claim C5, amended: rising and recovery alerts of a debouncer strictly
alternate starting from the phase the active flag records — so there is at
most one rising alert per run of consecutive over-threshold samples and
exactly one recovery per return under threshold while an alert is active —
and every rising alert is gated by the CooldownGate (consecutive rising
alerts, measured from the stored last-rising time, are more than the
cooldown apart); recovery alerts, however, are emitted immediately and are
not cooldown-gated. -/
theorem debounce_alert_discipline (cfg : DebounceConfig) (hN : 1 ≤ cfg.persistence) :
    (∀ (events : List (ℤ × ℤ)) (st : DebounceState),
      ((prevKind st :: ((debounceRun cfg st events).2.map Prod.snd)).Chain' (· ≠ ·)) ∧
      ((st.lastAlertTs :: (((debounceRun cfg st events).2.filter fun e =>
          decide (e.2 = DebounceAlert.rising)).map Prod.fst)).Chain'
        fun a b => cfg.cooldown < b - a)) ∧
    (∀ (now v : ℤ) (s : DebounceState), s.active = true → v < cfg.threshold →
      (debounceStep cfg now v s).2 = [DebounceAlert.recovery]) := by
  refine ⟨debounceRun_discipline cfg hN, ?_⟩
  intro now v s hact hu
  have hstep := debounceStep_under cfg hN now v s (not_le.mpr hu)
  rw [hstep, hact]
  simp

/-- Witness for the amended C5: the CPU configuration (threshold 80,
persistence 3, cooldown 300). -/
theorem debounce_alert_discipline_witness :
    (∀ (events : List (ℤ × ℤ)) (st : DebounceState),
      ((prevKind st ::
          ((debounceRun ⟨80, 3, 300⟩ st events).2.map Prod.snd)).Chain' (· ≠ ·)) ∧
      ((st.lastAlertTs :: (((debounceRun ⟨80, 3, 300⟩ st events).2.filter fun e =>
          decide (e.2 = DebounceAlert.rising)).map Prod.fst)).Chain'
        fun a b => (300 : ℤ) < b - a)) ∧
    (∀ (now v : ℤ) (s : DebounceState), s.active = true → v < 80 →
      (debounceStep ⟨80, 3, 300⟩ now v s).2 = [DebounceAlert.recovery]) :=
  debounce_alert_discipline ⟨80, 3, 300⟩ (by decide)

/-- Claim C7: CPU threshold 80, persistence 3, fresh debouncer state.  Any
three over-threshold samples 85,85,85 (the third falling after the initial
cooldown horizon) emit exactly one rising alert, on the third sample and
not earlier; samples 85,85,70 emit nothing and leave the consecutive
counter at 0. -/
theorem cpu_persistence_three (t1 t2 t3 s1 s2 s3 : ℤ)
    (h3 : t3 - 0 > ALERT_COOLDOWN) :
    (debounceRun ⟨80, PERSISTENCE_COUNT, ALERT_COOLDOWN⟩ ⟨0, false, 0⟩
        [(t1, 85), (t2, 85), (t3, 85)]).2 = [(t3, DebounceAlert.rising)] ∧
    (debounceRun ⟨80, PERSISTENCE_COUNT, ALERT_COOLDOWN⟩ ⟨0, false, 0⟩
        [(s1, 85), (s2, 85), (s3, 70)]).2 = [] ∧
    (debounceRun ⟨80, PERSISTENCE_COUNT, ALERT_COOLDOWN⟩ ⟨0, false, 0⟩
        [(s1, 85), (s2, 85), (s3, 70)]).1.count = 0 := by
  have e1 : ∀ u : ℤ, debounceStep ⟨80, PERSISTENCE_COUNT, ALERT_COOLDOWN⟩ u 85 ⟨0, false, 0⟩ =
      (⟨1, false, 0⟩, []) := by
    intro u
    rw [debounceStep_over_blocked _ u 85 ⟨0, false, 0⟩ (by decide)]
    intro h
    exact absurd h.1 (by decide)
  have e2 : ∀ u : ℤ, debounceStep ⟨80, PERSISTENCE_COUNT, ALERT_COOLDOWN⟩ u 85 ⟨1, false, 0⟩ =
      (⟨2, false, 0⟩, []) := by
    intro u
    rw [debounceStep_over_blocked _ u 85 ⟨1, false, 0⟩ (by decide)]
    intro h
    exact absurd h.1 (by decide)
  have e3 : debounceStep ⟨80, PERSISTENCE_COUNT, ALERT_COOLDOWN⟩ t3 85 ⟨2, false, 0⟩ =
      (⟨3, true, t3⟩, [DebounceAlert.rising]) :=
    debounceStep_over_fires _ t3 85 ⟨2, false, 0⟩ (by decide) (by decide) rfl h3
  have e4 : debounceStep ⟨80, PERSISTENCE_COUNT, ALERT_COOLDOWN⟩ s3 70 ⟨2, false, 0⟩ =
      (⟨0, false, 0⟩, []) := by
    rw [debounceStep_under _ (by decide) s3 70 ⟨2, false, 0⟩ (by decide)]
    simp
  refine ⟨?_, ?_, ?_⟩
  · simp only [debounceRun, e1 t1, e2 t2, e3, List.map_cons, List.map_nil,
      List.nil_append, List.singleton_append, List.cons_append]
  · simp only [debounceRun, e1 s1, e2 s2, e4, List.map_nil, List.nil_append]
  · simp only [debounceRun, e1 s1, e2 s2, e4, List.map_nil, List.nil_append]

/-- Witness for C7: concrete times 1000, 1060, 1120 and 2000, 2060, 2120. -/
theorem cpu_persistence_three_witness :
    (debounceRun ⟨80, PERSISTENCE_COUNT, ALERT_COOLDOWN⟩ ⟨0, false, 0⟩
        [(1000, 85), (1060, 85), (1120, 85)]).2 = [(1120, DebounceAlert.rising)] ∧
    (debounceRun ⟨80, PERSISTENCE_COUNT, ALERT_COOLDOWN⟩ ⟨0, false, 0⟩
        [(2000, 85), (2060, 85), (2120, 70)]).2 = [] ∧
    (debounceRun ⟨80, PERSISTENCE_COUNT, ALERT_COOLDOWN⟩ ⟨0, false, 0⟩
        [(2000, 85), (2060, 85), (2120, 70)]).1.count = 0 :=
  cpu_persistence_three 1000 1060 1120 2000 2060 2120 (by decide)

/-! ## Cooldown gate (nodesentinel.py, monitor_system_task disk alerts)

The per-mount disk alert gate (lines 442-448) keeps, in the
last_remote_disk_alert dict, one timestamp per key "remote_<mount>",
defaulting to 0: the alert is sent iff now - ts > cooldown, and then the
key's timestamp is set to now.  Distinct keys use disjoint dict entries,
so a run is modelled for one fixed key; an event pairs a cycle time with
whether that mount was in remote_alerts (usage ≥ DISK_THRESHOLD_PCT) that
cycle. -/

/-- Fold of the disk-alert gate over one key's events: returns the final
stored timestamp and the times of the emitted alerts. -/
def cooldownRun (cooldown : ℤ) (last : ℤ) : List (ℤ × Bool) → ℤ × List ℤ
  | [] => (last, [])
  | (now, q) :: rest =>
      if q = true ∧ now - last > cooldown then
        let r := cooldownRun cooldown now rest
        (r.1, now :: r.2)
      else
        cooldownRun cooldown last rest

/-- Starting from stored time last, consecutive emissions (and the first
emission after last) are more than the cooldown apart. -/
theorem cooldownRun_chain (cooldown : ℤ) :
    ∀ (events : List (ℤ × Bool)) (last : ℤ),
      (last :: (cooldownRun cooldown last events).2).Chain' fun a b => cooldown < b - a := by
  intro events
  induction events with
  | nil =>
      intro last
      simp [cooldownRun]
  | cons e rest ih =>
      obtain ⟨now, q⟩ := e
      intro last
      by_cases h : q = true ∧ now - last > cooldown
      · simp only [cooldownRun, if_pos h]
        rw [List.chain'_cons]
        exact ⟨h.2, ih now⟩
      · simp only [cooldownRun, if_neg h]
        exact ih last

/-- Claim C8: for every key, two emissions of the cooldown gate are always
more than the cooldown window apart — whatever the qualifying pattern in
between — and a qualifying event arriving after the window has elapsed
since the stored time is emitted at once. -/
theorem cooldown_gate_spacing (cooldown : ℤ) (hc : 0 ≤ cooldown) (last0 : ℤ)
    (events : List (ℤ × Bool)) :
    ((cooldownRun cooldown last0 events).2.Pairwise fun a b => cooldown < b - a) ∧
    (∀ (l now : ℤ) (rest : List (ℤ × Bool)), now - l > cooldown →
      (cooldownRun cooldown l ((now, true) :: rest)).2.head? = some now) := by
  constructor
  · haveI : IsTrans ℤ (fun a b => cooldown < b - a) := ⟨fun x y z hxy hyz => by omega⟩
    exact List.chain'_iff_pairwise.mp (cooldownRun_chain cooldown events last0).tail
  · intro l now rest hgap
    simp only [cooldownRun]
    rw [if_pos (⟨trivial, hgap⟩ : True ∧ now - l > cooldown)]
    rfl

/-- Witness for C8: cooldown 300, key last fired at 0; qualifying events at
400, 500, 800 — emissions at 400 and 800 only, more than 300 apart; and
the immediate-emission conjunct at gap 400. -/
theorem cooldown_gate_spacing_witness :
    ((cooldownRun 300 0 [(400, true), (500, true), (800, true)]).2.Pairwise
      fun a b => (300 : ℤ) < b - a) ∧
    (∀ (l now : ℤ) (rest : List (ℤ × Bool)), now - l > 300 →
      (cooldownRun 300 l ((now, true) :: rest)).2.head? = some now) :=
  cooldown_gate_spacing 300 (by decide) 0 [(400, true), (500, true), (800, true)]

/-! ## Set-difference change detection (nodesentinel.py, monitor_lnd_task)

The peers check (lines 508-520) and the channels check (lines 526-541)
compare the freshly fetched identifier set against the previous snapshot
with new = cur - prev and removed = prev - cur, then replace the snapshot
wholesale. -/

/-- diff(previous, current) as monitor_lnd_task computes it: added members
are current minus previous, removed members are previous minus current.
Identifiers (pub_key / channel_point) are strings. -/
def setDiff (prev cur : Finset String) : Finset String × Finset String :=
  (cur \ prev, prev \ cur)

/-- Claim C9: added = current − previous and removed = previous − current;
hence diff(S, S) = (∅, ∅) for every S, and diff(A, B) and diff(B, A) have
their added and removed components swapped. -/
theorem setDiff_algebra (S A B : Finset String) :
    (setDiff A B).1 = B \ A ∧
    (setDiff A B).2 = A \ B ∧
    setDiff S S = (∅, ∅) ∧
    (setDiff A B).1 = (setDiff B A).2 ∧
    (setDiff A B).2 = (setDiff B A).1 := by
  refine ⟨rfl, rfl, ?_, rfl, rfl⟩
  unfold setDiff
  rw [Finset.sdiff_self]
